import Mathlib

deriving instance DecidableEq for Except

/-!
# Verification of `github-clubhouse-importer` (`src/ghch.js`)

A shallow embedding of the import pipeline in `src/ghch.js`:

* `fetchGithubIssues` — builds the paginated listing request and filters out
  pull requests (lines 10–21);
* `getStoryType` — derives the story category from the labels (lines 23–27);
* `getStory` — maps one GitHub issue to one Clubhouse story (lines 30–45);
* `importIssuesToClubhouse` — resolves the project, maps the issues, chunks the
  stories into batches of 10 and submits the batches (lines 66–92); the
  `catch` handler at line 81 evaluates `issue.number` where `issue` is not in
  scope, so a batch failure raises a `ReferenceError` inside the handler;
* `validateOptions` — option validation and `process.exit(1)` (lines 94–131);
  note that `options.state.toLowerCase()` at line 118 throws a `TypeError`
  when `state` is absent;
* `githubClubhouseImport` — the orchestrator (lines 133–150).

Network effects (octokit pagination, `clubhouse.getProject`, the bulk-create
POST) are parameters of the embedding: each is a function from the request to
its outcome, so a run of the program is a pure function of the options, the
issue data and the per-call outcomes.  User-visible behaviour is recorded as a
trace of `Event`s.
-/

/-- A GitHub label as consumed by the importer: `{name, color}`, the color a
hex string without a leading `#`. -/
structure Label where
  name : String
  color : String
deriving DecidableEq, Repr

/-- The fields of a fetched GitHub issue that `ghch.js` reads.  `body` is
`none` when the field is absent (`undefined`/`null`); `pull_request` is `true`
when the item carries a `pull_request` key, which marks it as a PR. -/
structure Issue where
  html_url : String
  created_at : String
  updated_at : String
  labels : List Label
  title : String
  body : Option String
  pull_request : Bool
  number : Nat
deriving DecidableEq, Repr

/-- A Clubhouse story as built by `getStory`. -/
structure Story where
  created_at : String
  updated_at : String
  story_type : String
  name : String
  description : String
  external_id : String
  project_id : Nat
  labels : List Label
deriving DecidableEq, Repr

/-- The resolved Clubhouse project; `ghch.js` only reads its `id`. -/
structure Project where
  id : Nat
deriving DecidableEq, Repr

/-- The options record handed to `githubClubhouseImport`.  The four required
string options are `""` when missing or empty (both are falsy in JS and
validation treats them alike); `state` is `none` when absent, which matters
because `validateOptions` calls `.toLowerCase()` on it. -/
structure Options where
  githubToken : String
  clubhouseToken : String
  clubhouseProject : String
  githubUrl : String
  state : Option String
deriving DecidableEq, Repr

/-- The paginated issue-listing request `fetchGithubIssues` builds via
`octokit.issues.listForRepo.endpoint.merge`. -/
structure ListRequest where
  owner : Option String
  repo : Option String
  per_page : Nat
  state : Option String
deriving DecidableEq, Repr

/-- JavaScript `String.prototype.includes`: substring containment,
case-sensitive (an empty needle is always contained). -/
def includesStr (s pat : String) : Bool :=
  (List.range (s.toList.length + 1)).any fun i =>
    pat.toList.isPrefixOf (s.toList.drop i)

/-- ASCII lower-casing of one character, as `String.prototype.toLowerCase`
acts on the ASCII range (the only range these option strings and label names
exercise). -/
def lowerChar (c : Char) : Char :=
  if 65 ≤ c.toNat ∧ c.toNat ≤ 90 then Char.ofNat (c.toNat + 32) else c

/-- JavaScript `String.prototype.toLowerCase` restricted to ASCII. -/
def toLowerStr (s : String) : String :=
  String.mk (s.toList.map lowerChar)

/-- `getStoryType` (ghch.js lines 23–27): first label whose name contains
`"bug"` wins, then `"chore"`, default `"feature"`.  `Array.prototype.find`
returns the first match (truthy check only), mirrored by `List.find?`. -/
def getStoryType (labels : List Label) : String :=
  if (labels.find? fun label => includesStr label.name "bug").isSome then "bug"
  else if (labels.find? fun label => includesStr label.name "chore").isSome then "chore"
  else "feature"

/-- `getStory` (ghch.js lines 30–45): maps one issue to one story.
`description` is `body || ''`, i.e. the body when present (an empty-string
body also yields `''`), and each label's color is re-emitted with a `#` in
front. -/
def getStory (project_id : Nat) (issue : Issue) : Story :=
  { created_at := issue.created_at
    updated_at := issue.updated_at
    story_type := getStoryType issue.labels
    name := issue.title
    description := issue.body.getD ""
    external_id := issue.html_url
    project_id := project_id
    labels := issue.labels.map fun label =>
      { color := "#" ++ label.color, name := label.name } }

/-- Fuel-driven worker for `chunk`: peels `size` elements at a time.  The
fuel only forces termination; `chunk` passes `l.length`, which always
suffices because each step consumes at least one element. -/
def chunkFuel : Nat → Nat → List α → List (List α)
  | 0, _, _ => []
  | _ + 1, _, [] => []
  | fuel + 1, size, x :: xs =>
    ((x :: xs).take size) :: chunkFuel fuel size ((x :: xs).drop size)

/-- `lodash.chunk`: contiguous chunks of `size` elements in order, the last
chunk holding the remainder; `chunk(l, 0)` is `[]`. -/
def chunk (size : Nat) (l : List α) : List (List α) :=
  if size = 0 then [] else chunkFuel l.length size l

/-- JavaScript `String.prototype.split` with a one-character separator, on
char lists: `''.split(sep)` is `['']`, and every occurrence of the separator
starts a new piece. -/
def splitChars (sep : Char) : List Char → List (List Char)
  | [] => [[]]
  | c :: cs =>
    match splitChars sep cs with
    | [] => [[]]
    | piece :: rest =>
      if c = sep then [] :: piece :: rest else (c :: piece) :: rest

/-- JavaScript `s.split(sep)` for a one-character separator. -/
def splitStr (s : String) (sep : Char) : List String :=
  (splitChars sep s.toList).map String.mk

/-- The request `fetchGithubIssues` builds (ghch.js lines 12–18):
`githubUrl` is split on `/` into owner and repo (the first two pieces of the
destructuring), `per_page` is 100, and `state` is `options.state` verbatim
(no lowercasing). -/
def buildRequest (o : Options) : ListRequest :=
  let parts := splitStr o.githubUrl '/'
  { owner := parts[0]?
    repo := parts[1]?
    per_page := 100
    state := o.state }

/-- `fetchGithubIssues` (ghch.js lines 10–21), with the paginated network call
abstracted as `paginate`: on success the pages' concatenation is filtered to
drop every item flagged as a pull request; a rejection propagates unchanged
(no partial results). -/
def fetchGithubIssues (paginate : ListRequest → Except String (List Issue))
    (o : Options) : Except String (List Issue) :=
  match paginate (buildRequest o) with
  | .error e => .error e
  | .ok data => .ok (data.filter fun issue => !issue.pull_request)

/-- A JavaScript exception as far as this embedding distinguishes them. -/
inductive JsError where
  /-- The `ReferenceError` raised by the `catch` handler at ghch.js line 81,
  which reads `issue.number` with `issue` not in scope. -/
  | referenceError
deriving DecidableEq, Repr

/-- One batch's round trip inside the `Promise.all` of ghch.js lines 75–84.
`submit` abstracts `createStories`: `.ok n` when the bulk-create succeeded
and the response array had length `n`, `.error msg` when the destination
rejected the batch or the transport failed.  On failure the `catch` block
evaluates the template literal referencing the out-of-scope `issue`, so the
handler itself throws a `ReferenceError` instead of logging. -/
def batchHandler (submit : List Story → Except String Nat)
    (batch : List Story) : Except JsError Nat :=
  match submit batch with
  | .ok n => .ok n
  | .error _ => .error .referenceError

/-- The joint outcome of `await Promise.all(batches.map ...)` together with
the running `issuesImported` total: the sum of the per-batch counts when every
handler resolved, or the (first) rejection when any handler threw. -/
def runBatches (submit : List Story → Except String Nat) :
    List (List Story) → Except JsError Nat
  | [] => .ok 0
  | b :: bs =>
    match batchHandler submit b, runBatches submit bs with
    | .ok n, .ok m => .ok (n + m)
    | .error e, _ => .error e
    | _, .error e => .error e

/-- A user-visible event of one run: network calls and console/spinner
output, in program order. -/
inductive Event where
  /-- `octokit.paginate` was invoked with this request. -/
  | fetchCall (req : ListRequest)
  /-- The `Retrieved N issues from Github` spinner success (post-filter count). -/
  | fetchSucceeded (n : Nat)
  /-- The `Failed to fetch issues from <url>` spinner failure followed by the
  logged underlying error. -/
  | fetchFailed (url : String) (errMsg : String)
  /-- `clubhouse.getProject` was invoked with this project id. -/
  | projectLookup (projectId : String)
  /-- One bulk-create POST carrying this batch. -/
  | bulkCreate (batch : List Story)
  /-- The `Clubhouse Project ID <id> could not be found` message logged by the
  outer `catch` of `importIssuesToClubhouse`. -/
  | projectNotFoundLog (projectId : String)
  /-- The `Imported N issues into Clubhouse` report; `none` renders as
  `undefined`. -/
  | importReport (count : Option Nat)
deriving DecidableEq, Repr

/-- `importIssuesToClubhouse` (ghch.js lines 66–92).  `getProject` abstracts
`clubhouse.getProject`.  Every batch's bulk-create call fires (the
`batches.map` starts them all), so each batch contributes a `bulkCreate`
event; when any batch handler throws, the rejection of `Promise.all` lands in
the outer `catch`, which logs the project-not-found message and lets the
function return `undefined` (`none`). -/
def importIssuesToClubhouse (getProject : String → Except String Project)
    (submit : List Story → Except String Nat)
    (o : Options) (issues : List Issue) : Option Nat × List Event :=
  match getProject o.clubhouseProject with
  | .error _ =>
    (none, [.projectLookup o.clubhouseProject, .projectNotFoundLog o.clubhouseProject])
  | .ok project =>
    let stories := issues.map (getStory project.id)
    let batches := chunk 10 stories
    let calls := batches.map Event.bulkCreate
    match runBatches submit batches with
    | .ok n => (some n, .projectLookup o.clubhouseProject :: calls)
    | .error _ =>
      (none, .projectLookup o.clubhouseProject :: calls
        ++ [.projectNotFoundLog o.clubhouseProject])

/-- How a call of `validateOptions` ends. -/
inductive ValidationOutcome where
  /-- Fell through: no violation found, the import proceeds. -/
  | ok
  /-- `process.exit(1)` at ghch.js line 129. -/
  | exitOne
  /-- The `TypeError` thrown at line 118 by `options.state.toLowerCase()`
  when `state` is absent; the process dies on the unhandled rejection
  (non-zero exit) without reaching the state-usage message or
  `process.exit`. -/
  | typeError
deriving DecidableEq, Repr

def msgGithubToken : String := "Usage: --github-token arg is required"
def msgClubhouseToken : String := "Usage: --clubhouse-token arg is required"
def msgClubhouseProject : String := "Usage: --clubhouse-project arg is required"
def msgGithubUrl : String := "Usage: --github-url arg is required"
def msgState : String := "Usage: --state must be one of open | closed | all"

/-- The three state values recognized at ghch.js line 118. -/
def stateValues : List String := ["open", "closed", "all"]

/-- `validateOptions` (ghch.js lines 94–131): logs one usage message per
falsy required option, in source order; then checks
`['open','closed','all'].includes(options.state.toLowerCase())` — which
throws a `TypeError` when `state` is absent — and finally calls
`process.exit(1)` iff any message was logged.  Returns the logged messages
and how the call ended. -/
def validateOptions (o : Options) : List String × ValidationOutcome :=
  let m1 := if o.githubToken = "" then [msgGithubToken] else []
  let m2 := if o.clubhouseToken = "" then [msgClubhouseToken] else []
  let m3 := if o.clubhouseProject = "" then [msgClubhouseProject] else []
  let m4 := if o.githubUrl = "" then [msgGithubUrl] else []
  match o.state with
  | none => (m1 ++ m2 ++ m3 ++ m4, .typeError)
  | some s =>
    let m5 := if stateValues.contains (toLowerStr s) then [] else [msgState]
    let msgs := m1 ++ m2 ++ m3 ++ m4 ++ m5
    (msgs, if msgs.isEmpty then .ok else .exitOne)

/-- The outcome of a whole `githubClubhouseImport` run: the usage messages
printed by validation, the trace of network calls and reports, and whether
the process died with a non-zero status (either `process.exit(1)` or the
unhandled `TypeError`). -/
structure RunResult where
  validationMsgs : List String
  events : List Event
  exitedNonzero : Bool
deriving DecidableEq, Repr

/-- `githubClubhouseImport` (ghch.js lines 133–150): validate, fetch, then
import.  When validation fails the process dies before any network call.
When the fetch fails, the failure is reported (URL plus underlying message)
and `issues` stays `undefined`, so the import block is skipped entirely. -/
def githubClubhouseImport (paginate : ListRequest → Except String (List Issue))
    (getProject : String → Except String Project)
    (submit : List Story → Except String Nat)
    (o : Options) : RunResult :=
  match validateOptions o with
  | (msgs, .exitOne) => ⟨msgs, [], true⟩
  | (msgs, .typeError) => ⟨msgs, [], true⟩
  | (_, .ok) =>
    let req := buildRequest o
    match fetchGithubIssues paginate o with
    | .error e => ⟨[], [.fetchCall req, .fetchFailed o.githubUrl e], false⟩
    | .ok issues =>
      let (res, ev) := importIssuesToClubhouse getProject submit o issues
      ⟨[], [.fetchCall req, .fetchSucceeded issues.length] ++ ev
          ++ [.importReport res], false⟩

/-- The category derivation the spec describes for claim C3: the same
priority order but a **case-insensitive** substring match (both sides
lower-cased before the containment test).  Stated from the spec's words, for
comparison with `getStoryType`. -/
def getStoryTypeSpecCI (labels : List Label) : String :=
  if (labels.find? fun label => includesStr (toLowerStr label.name) "bug").isSome then "bug"
  else if (labels.find? fun label => includesStr (toLowerStr label.name) "chore").isSome then "chore"
  else "feature"

/-! ## Concrete fixtures for witnesses and counterexamples -/

/-- A pull-request-free issue with a unique URL, for concrete runs. -/
def mkIssue (k : Nat) : Issue :=
  { html_url := "u" ++ toString k
    created_at := "2020-01-01T00:00:00Z"
    updated_at := "2020-01-02T00:00:00Z"
    labels := []
    title := "issue"
    body := none
    pull_request := false
    number := k }

/-- An item flagged as a pull request. -/
def prIssue : Issue :=
  { html_url := "pr99"
    created_at := "2020-01-01T00:00:00Z"
    updated_at := "2020-01-02T00:00:00Z"
    labels := []
    title := "a pull request"
    body := none
    pull_request := true
    number := 99 }

/-- 25 pull-request-free issues: three batches of 10, 10 and 5. -/
def issues25 : List Issue := (List.range 25).map mkIssue

/-- A fully valid options record. -/
def opts1 : Options :=
  { githubToken := "gt"
    clubhouseToken := "ct"
    clubhouseProject := "123"
    githubUrl := "owner/repo"
    state := some "open" }

/-- Project resolution succeeding with project id 7. -/
def gpOk : String → Except String Project := fun _ => .ok ⟨7⟩

/-- Project resolution failing. -/
def gpFail : String → Except String Project := fun _ => .error "Resource not found"

/-- Every bulk-create call succeeding, the destination confirming every
record of the batch as created. -/
def submitOk : List Story → Except String Nat := fun batch => .ok batch.length

/-- A destination that rejects exactly the batch starting at the story mapped
from issue `u10` — the second of the three batches of `issues25` — and
confirms every record of any other batch. -/
def failSecond : List Story → Except String Nat := fun batch =>
  if batch.head?.map Story.external_id = some "u10" then .error "Unprocessable"
  else .ok batch.length

/-- Pagination returning one plain issue. -/
def pagOne : ListRequest → Except String (List Issue) := fun _ => .ok [mkIssue 0]

/-- Pagination returning only a pull request. -/
def pagPR : ListRequest → Except String (List Issue) := fun _ => .ok [prIssue]

/-- Pagination returning a plain issue and a pull request. -/
def pagMix : ListRequest → Except String (List Issue) :=
  fun _ => .ok [mkIssue 0, prIssue]

/-- Pagination failing with a transport error. -/
def pagErr : ListRequest → Except String (List Issue) :=
  fun _ => .error "connect ECONNREFUSED"

/-- A valid options record whose `--clubhouse-project` is missing. -/
def optsNoProject : Options :=
  { githubToken := "gt"
    clubhouseToken := "ct"
    clubhouseProject := ""
    githubUrl := "owner/repo"
    state := some "open" }

/-- An options record with all four required options present but no `state`. -/
def optsNoState : Options :=
  { githubToken := "gt"
    clubhouseToken := "ct"
    clubhouseProject := "123"
    githubUrl := "owner/repo"
    state := none }

/-- A valid options record with the upper-case state spelling `OPEN`. -/
def optsUpper : Options :=
  { githubToken := "gt"
    clubhouseToken := "ct"
    clubhouseProject := "123"
    githubUrl := "owner/repo"
    state := some "OPEN" }


/-- The five validation rules of `validateOptions` for an options record
whose `state` is `some s`, in source order, each `true` iff violated: the
four required-option checks and the recognized-state check. -/
def violationFlags (o : Options) (s : String) : List Bool :=
  [o.githubToken == "", o.clubhouseToken == "", o.clubhouseProject == "",
   o.githubUrl == "", !stateValues.contains (toLowerStr s)]

/-! ## Helper lemmas -/

theorem chunk_nil (size : Nat) : chunk size ([] : List α) = [] := by
  unfold chunk
  split <;> rfl

theorem chunkFuel_flatten (size : Nat) (hs : size ≠ 0) :
    ∀ (fuel : Nat) (l : List α), l.length ≤ fuel →
      (chunkFuel fuel size l).flatten = l := by
  intro fuel
  induction fuel with
  | zero =>
    intro l hl
    rw [List.length_eq_zero.mp (Nat.le_zero.mp hl)]
    rfl
  | succ n ih =>
    intro l hl
    match l with
    | [] => rfl
    | x :: xs =>
      simp only [chunkFuel, List.flatten_cons]
      rw [ih ((x :: xs).drop size) ?_]
      · exact List.take_append_drop size (x :: xs)
      · simp only [List.length_drop, List.length_cons]
        simp only [List.length_cons] at hl
        omega

theorem chunkFuel_mem_length_le (size : Nat) :
    ∀ (fuel : Nat) (l : List α), ∀ b ∈ chunkFuel fuel size l, b.length ≤ size := by
  intro fuel
  induction fuel with
  | zero =>
    intro l b hb
    simp [chunkFuel] at hb
  | succ n ih =>
    intro l b hb
    match l with
    | [] => simp [chunkFuel] at hb
    | x :: xs =>
      simp only [chunkFuel, List.mem_cons] at hb
      rcases hb with hb | hb
      · subst hb
        exact List.length_take_le size (x :: xs)
      · exact ih ((x :: xs).drop size) b hb

theorem find?_isSome_eq_any (l : List α) (p : α → Bool) :
    (l.find? p).isSome = l.any p := by
  induction l with
  | nil => rfl
  | cons x xs ih =>
    by_cases h : p x <;> simp [List.find?_cons, h, ih]

theorem chunk_flatten (size : Nat) (hs : size ≠ 0) (l : List α) :
    (chunk size l).flatten = l := by
  unfold chunk
  rw [if_neg hs]
  exact chunkFuel_flatten size hs l.length l (Nat.le_refl _)

theorem chunk_mem_length_le (size : Nat) (l : List α) :
    ∀ b ∈ chunk size l, b.length ≤ size := by
  unfold chunk
  by_cases hs : size = 0
  · simp [hs]
  · rw [if_neg hs]
    exact chunkFuel_mem_length_le size l.length l

/-! ## Claims -/

/-- **C3, counterexample.** The claim says the category match is
case-insensitive; it is not.  For the single label `Bug` the spec's
case-insensitive derivation gives `bug`, but `getStoryType` — a
case-sensitive `includes` — gives `feature`. -/
theorem c3_counterexample :
    getStoryTypeSpecCI [⟨"Bug", "ff0000"⟩] = "bug" ∧
    getStoryType [⟨"Bug", "ff0000"⟩] = "feature" := by
  constructor <;> decide

/-- **C3, amended.** For every sequence of labels the derived category is
computed by **case-sensitive** substring match with first-match-wins
priority: `bug` iff some label name contains `"bug"`; `chore` iff no label
name contains `"bug"` but some contains `"chore"`; `feature` iff neither
(including zero labels). -/
theorem c3_storyType_priority (labels : List Label) :
    (getStoryType labels = "bug" ↔ ∃ l ∈ labels, includesStr l.name "bug") ∧
    (getStoryType labels = "chore" ↔
      (¬ ∃ l ∈ labels, includesStr l.name "bug") ∧
        ∃ l ∈ labels, includesStr l.name "chore") ∧
    (getStoryType labels = "feature" ↔
      (¬ ∃ l ∈ labels, includesStr l.name "bug") ∧
        ¬ ∃ l ∈ labels, includesStr l.name "chore") := by
  unfold getStoryType
  rw [find?_isSome_eq_any, find?_isSome_eq_any]
  simp only [← List.any_eq_true]
  cases hb : labels.any (fun l => includesStr l.name "bug") <;>
    cases hc : labels.any (fun l => includesStr l.name "chore") <;>
      simp [hb, hc]

/-- **C6.** Chunking the mapped stories into batches of 10 yields contiguous
batches each of size at most 10, and concatenating the batches in order
reconstructs exactly the original sequence. -/
theorem c6_chunk_partition (stories : List Story) :
    (chunk 10 stories).flatten = stories ∧
      ∀ b ∈ chunk 10 stories, b.length ≤ 10 :=
  ⟨chunk_flatten 10 (by decide) stories, chunk_mem_length_le 10 stories⟩

/-- **C7.** `getStory` maps each issue field as the spec says: `name` from
the title, `description` from the body (empty when absent), `external_id`
from the URL, timestamps passed through, `project_id` from the resolved
project, and each label re-emitted with the same name and a `#`-prefixed
color.  Being a Lean function, it is deterministic and side-effect free. -/
theorem c7_getStory_fields (project_id : Nat) (issue : Issue) :
    (getStory project_id issue).name = issue.title ∧
    (getStory project_id issue).description = issue.body.getD "" ∧
    (getStory project_id issue).external_id = issue.html_url ∧
    (getStory project_id issue).created_at = issue.created_at ∧
    (getStory project_id issue).updated_at = issue.updated_at ∧
    (getStory project_id issue).project_id = project_id ∧
    (getStory project_id issue).labels
      = issue.labels.map (fun l => { name := l.name, color := "#" ++ l.color }) :=
  ⟨rfl, rfl, rfl, rfl, rfl, rfl, rfl⟩

/-- **C1.** Evaluation of `importIssuesToClubhouse` on 25 mapped records
(batches of 10, 10, 5) where exactly the second batch's bulk-create is
rejected.  The destination confirms 10 + 5 records for batches 1 and 3, so
the claimed (and spec-intended) result is 15 — but the `catch` handler at
ghch.js line 81 evaluates `issue.number` with `issue` out of scope, its
`ReferenceError` rejects the surrounding `Promise.all`, the outer `catch`
logs the misleading project-not-found message and the function returns
`undefined` (`none`), not 15. -/
theorem c1_batch_failure_code_bug :
    (chunk 10 (issues25.map (getStory 7))).map failSecond
        = [.ok 10, .error "Unprocessable", .ok 5] ∧
    ((chunk 10 (issues25.map (getStory 7))).map fun b =>
        match failSecond b with | .ok n => n | .error _ => 0).sum = 15 ∧
    (importIssuesToClubhouse gpOk failSecond opts1 issues25).1 = none ∧
    Event.projectNotFoundLog "123"
        ∈ (importIssuesToClubhouse gpOk failSecond opts1 issues25).2 := by
  refine ⟨?_, ?_, ?_, ?_⟩ <;> decide

/-- **C2, counterexample.** A run with valid options in which project
resolution fails: the claim says the Source Fetcher is never invoked and the
reported imported count is 0, but the trace contains the fetch call (the
fetch happens *before* project resolution) and the reported count is
`undefined` (`none`), not 0. -/
theorem c2_counterexample :
    Event.fetchCall (buildRequest opts1)
        ∈ (githubClubhouseImport pagOne gpFail submitOk opts1).events ∧
    Event.importReport (some 0)
        ∉ (githubClubhouseImport pagOne gpFail submitOk opts1).events ∧
    Event.importReport none
        ∈ (githubClubhouseImport pagOne gpFail submitOk opts1).events := by
  refine ⟨?_, ?_, ?_⟩ <;> decide

/-- **C2, amended.** For every run with valid configuration and a successful
fetch in which the destination project identifier fails to resolve, exactly
one user-facing failure report is produced (the project-not-found message)
and no batch is submitted — but the Source Fetcher has already been invoked
(fetching precedes project resolution), and the final report carries no
count (`undefined`), not 0. -/
theorem c2_project_resolution_failure
    (pag : ListRequest → Except String (List Issue))
    (gp : String → Except String Project)
    (submit : List Story → Except String Nat)
    (o : Options) (data : List Issue) (err : String)
    (hval : validateOptions o = ([], .ok))
    (hpag : pag (buildRequest o) = .ok data)
    (hgp : gp o.clubhouseProject = .error err) :
    githubClubhouseImport pag gp submit o =
      ⟨[], [.fetchCall (buildRequest o),
            .fetchSucceeded (data.filter fun i => !i.pull_request).length,
            .projectLookup o.clubhouseProject,
            .projectNotFoundLog o.clubhouseProject,
            .importReport none], false⟩ := by
  simp [githubClubhouseImport, fetchGithubIssues, importIssuesToClubhouse,
        hval, hpag, hgp]

/-- Witness for `c2_project_resolution_failure` at `opts1`, one fetched
issue and a failing project lookup. -/
theorem c2_project_resolution_failure_witness :
    githubClubhouseImport pagOne gpFail submitOk opts1 =
      ⟨[], [.fetchCall (buildRequest opts1), .fetchSucceeded 1,
            .projectLookup "123", .projectNotFoundLog "123",
            .importReport none], false⟩ :=
  c2_project_resolution_failure pagOne gpFail submitOk opts1 [mkIssue 0]
    "Resource not found" (by decide) rfl rfl

/-- **C4, counterexample.** With all four required options present but the
state filter absent — a configuration whose state is not one of the three
recognized values — the claim demands one reported violation and a
`process.exit(1)`.  Instead `validateOptions` reports nothing and dies on the
`TypeError` from `options.state.toLowerCase()` before the state rule's
message or `process.exit` is reached. -/
theorem c4_counterexample :
    optsNoState.state = none ∧ validateOptions optsNoState = ([], .typeError) :=
  ⟨rfl, by decide⟩

/-- **C4, amended.** For every configuration whose state filter is *present*:
the number of reported messages equals the number of violated rules (one
message per violation, so all violations are reported); whenever at least one
rule is violated the process exits with status 1 before any network call
(the run's event trace is empty); and omitting only the destination project
identifier yields exactly the one `--clubhouse-project` message.  (When the
state filter is absent, validation instead crashes on a `TypeError` after
reporting only the missing-option violations — see the counterexample.) -/
theorem c4_validation (o : Options) (s : String) (hs : o.state = some s) :
    (validateOptions o).1.length = (violationFlags o s).count true ∧
    ((violationFlags o s).count true ≠ 0 →
      (validateOptions o).2 = .exitOne ∧
      ∀ pag gp submit, githubClubhouseImport pag gp submit o =
          ⟨(validateOptions o).1, [], true⟩) ∧
    (o.githubToken ≠ "" → o.clubhouseToken ≠ "" → o.githubUrl ≠ "" →
      stateValues.contains (toLowerStr s) = true → o.clubhouseProject = "" →
      (validateOptions o).1 = [msgClubhouseProject]) := by
  by_cases h1 : o.githubToken = "" <;>
  by_cases h2 : o.clubhouseToken = "" <;>
  by_cases h3 : o.clubhouseProject = "" <;>
  by_cases h4 : o.githubUrl = "" <;>
  by_cases h5 : stateValues.contains (toLowerStr s) = true <;>
    simp_all [validateOptions, violationFlags, githubClubhouseImport, hs]

/-- Witness for `c4_validation`: omitting only `--clubhouse-project` yields
exactly one reported violation. -/
theorem c4_validation_witness :
    (validateOptions optsNoProject).1 = [msgClubhouseProject] :=
  (c4_validation optsNoProject "open" rfl).2.2 (by decide) (by decide)
    (by decide) (by decide) rfl

/-- **C5.** Every fetched item flagged as a pull request is discarded, the
filtered issues all lack the flag, mapping is 1:1 (the story list handed to
the submitter has exactly one record per non-PR issue), and the total record
count across all submitted batches equals the non-PR issue count (no drops,
no merges). -/
theorem c5_pr_filter_one_to_one
    (pag : ListRequest → Except String (List Issue))
    (o : Options) (data : List Issue) (pid : Nat)
    (hpag : pag (buildRequest o) = .ok data) :
    fetchGithubIssues pag o = .ok (data.filter fun i => !i.pull_request) ∧
    (∀ i ∈ data.filter (fun i => !i.pull_request), i.pull_request = false) ∧
    ((data.filter fun i => !i.pull_request).map (getStory pid)).length
        = (data.filter fun i => !i.pull_request).length ∧
    ((chunk 10 ((data.filter fun i => !i.pull_request).map (getStory pid))).map
        List.length).sum = (data.filter fun i => !i.pull_request).length := by
  refine ⟨?_, ?_, ?_, ?_⟩
  · simp [fetchGithubIssues, hpag]
  · intro i hi
    simpa using List.of_mem_filter hi
  · simp
  · rw [← List.length_flatten, chunk_flatten 10 (by decide)]
    simp

/-- Witness for `c5_pr_filter_one_to_one`: of one plain issue and one pull
request, only the plain issue survives the fetch. -/
theorem c5_pr_filter_one_to_one_witness :
    fetchGithubIssues pagMix opts1
        = .ok ([mkIssue 0, prIssue].filter fun i => !i.pull_request) :=
  (c5_pr_filter_one_to_one pagMix opts1 [mkIssue 0, prIssue] 7 rfl).1

/-- **C8.** When the source fetch fails, `fetchGithubIssues` propagates the
error with no partial results, and the run's trace is exactly the fetch call
followed by one fetch-failed report carrying the repository identifier and
the underlying message: no project lookup, no mapping, no batch submission,
no import report. -/
theorem c8_fetch_failure
    (pag : ListRequest → Except String (List Issue))
    (gp : String → Except String Project)
    (submit : List Story → Except String Nat)
    (o : Options) (err : String)
    (hval : validateOptions o = ([], .ok))
    (hpag : pag (buildRequest o) = .error err) :
    fetchGithubIssues pag o = .error err ∧
    githubClubhouseImport pag gp submit o =
      ⟨[], [.fetchCall (buildRequest o), .fetchFailed o.githubUrl err], false⟩ := by
  constructor
  · simp [fetchGithubIssues, hpag]
  · simp [githubClubhouseImport, fetchGithubIssues, hval, hpag]

/-- Witness for `c8_fetch_failure` at a concrete transport error. -/
theorem c8_fetch_failure_witness :
    fetchGithubIssues pagErr opts1 = .error "connect ECONNREFUSED" ∧
    githubClubhouseImport pagErr gpOk submitOk opts1 =
      ⟨[], [.fetchCall (buildRequest opts1),
            .fetchFailed "owner/repo" "connect ECONNREFUSED"], false⟩ :=
  c8_fetch_failure pagErr gpOk submitOk opts1 "connect ECONNREFUSED"
    (by decide) rfl

/-- **C9.** When every fetched item is a pull request (so the filtered
sequence is empty) and the project resolves, the submitter makes zero
bulk-create calls and the reported imported count is exactly 0. -/
theorem c9_empty_import
    (pag : ListRequest → Except String (List Issue))
    (gp : String → Except String Project)
    (submit : List Story → Except String Nat)
    (o : Options) (data : List Issue) (project : Project)
    (hval : validateOptions o = ([], .ok))
    (hpag : pag (buildRequest o) = .ok data)
    (hpr : ∀ i ∈ data, i.pull_request = true)
    (hgp : gp o.clubhouseProject = .ok project) :
    githubClubhouseImport pag gp submit o =
      ⟨[], [.fetchCall (buildRequest o), .fetchSucceeded 0,
            .projectLookup o.clubhouseProject, .importReport (some 0)], false⟩ := by
  have hfil : data.filter (fun i => !i.pull_request) = [] := by
    rw [List.filter_eq_nil_iff]
    intro a ha
    simp [hpr a ha]
  simp [githubClubhouseImport, fetchGithubIssues, importIssuesToClubhouse,
        hval, hpag, hgp, hfil, chunk_nil, runBatches]

/-- Witness for `c9_empty_import`: a listing holding only a pull request. -/
theorem c9_empty_import_witness :
    githubClubhouseImport pagPR gpOk submitOk opts1 =
      ⟨[], [.fetchCall (buildRequest opts1), .fetchSucceeded 0,
            .projectLookup "123", .importReport (some 0)], false⟩ :=
  c9_empty_import pagPR gpOk submitOk opts1 [prIssue] ⟨7⟩ (by decide) rfl
    (by decide) rfl

/-- **C10.** For every state value accepted by validation, the state rule
emits no message (lowercasing is used only inside the membership check) and
the listing request is built with the original, unnormalized state string. -/
theorem c10_state_not_normalized (o : Options) (s : String)
    (hs : o.state = some s)
    (hmem : stateValues.contains (toLowerStr s) = true) :
    msgState ∉ (validateOptions o).1 ∧
    (buildRequest o).state = some s := by
  constructor
  · by_cases h1 : o.githubToken = "" <;>
    by_cases h2 : o.clubhouseToken = "" <;>
    by_cases h3 : o.clubhouseProject = "" <;>
    by_cases h4 : o.githubUrl = "" <;>
      simp_all [validateOptions, hs, hmem, msgGithubToken, msgClubhouseToken,
                msgClubhouseProject, msgGithubUrl, msgState]
  · simp [buildRequest, hs]

/-- Witness for `c10_state_not_normalized`: `OPEN` passes validation and the
request carries `OPEN`, not `open`. -/
theorem c10_state_not_normalized_witness :
    msgState ∉ (validateOptions optsUpper).1 ∧
    (buildRequest optsUpper).state = some "OPEN" :=
  c10_state_not_normalized optsUpper "OPEN" rfl (by decide)
